import Mathlib

/-!
Verification of the natural-language date/time normalization and
appointment-slot matching services of the bland-gcp-migration repository.

The development shallowly embeds the JavaScript sources:

* the slot matcher webhook (`scoreSlot`, `findBestSlots`, the
  `/webhook/check-timeslots` response assembly);
* the chrono/date-fns date-of-birth normalizer (`validateDOB`,
  `normalizeDateOfBirth`, the `/api/enhanced-dob-normalize` handler);
* the enhanced date-of-birth normalizer (`tryStandardFormats`,
  `parseContinuousNumeric`, `convertWordNumbers`, `parseYearExpressions`,
  `parseVoicePatterns` and the strategy chain);
* the time-parser preprocessing pipeline (`convertSpokenNumbersToDigits`,
  `enhancedWordSeparation`, `preprocessNaturalTime`,
  `fallbackAppointmentParser`, `parseNaturalTimeWithFallbacks`).

Calendar dates are modelled as day numbers or year/month/day triples,
clock times as minutes after midnight, and JavaScript numbers as `ℚ`
(the slot scores divide by 10 and therefore do not stay integral).
External libraries (chrono-node, the Google NLP call, moment's loose
last-resort parser, the Firestore store) are collaborators: functions
that wrap them take the collaborator's answer as an argument.
-/

/-! ### Slot matcher (webhook 3, check-timeslots)

`slot.date`/`preferences.date` are `YYYY-MM-DD` strings in the source;
`moment(a).diff(moment(b), 'days')` on such strings is the exact signed
day difference, so dates are embedded as day numbers (`Int`).
`slot.time`/`preferences.time` are `HH:mm` strings and
`moment(t1, 'HH:mm').diff(moment(t2, 'HH:mm'), 'minutes')` is the exact
signed minute difference, so clock times are embedded as minutes. -/

/-- `preferences.timeRange` of the slot matcher: `start`/`end` clock
times in minutes (`stop` stands for the JS field `end`, a Lean keyword). -/
structure TimeRange where
  start : Int
  stop : Int
deriving Repr, DecidableEq

/-- The `preferences` record assembled by the `/webhook/check-timeslots`
handler (`date`, `time`, `timeRange`; the timezone only affects response
formatting, not scoring). Absent fields are `none`. -/
structure SchedPreferences where
  date : Option Int
  time : Option Int
  timeRange : Option TimeRange
deriving Repr, DecidableEq

/-- A slot record as normalized by `findBestSlots` (`scheduledDate`,
`scheduledTimeSlot`, `scheduledAvailable`; `id` is the document id). -/
structure Slot where
  id : Nat
  date : Option Int
  time : Option Int
  available : Bool
deriving Repr, DecidableEq

/-- `getTimeDifference(time1, time2)`: absolute minute difference. -/
def getTimeDifference (time1 time2 : Int) : Nat :=
  (time1 - time2).natAbs

/-- `scoreSlot(slot, preferences)` from the check-timeslots webhook:
start at 100, adjust for date proximity, time proximity and time-range
containment, and floor at 0.  `moment(..).isBetween(a, b, null, '[]')`
is inclusive containment `a ≤ t ≤ b`. -/
def scoreSlot (slot : Slot) (preferences : SchedPreferences) : ℚ :=
  let score0 : ℚ := 100
  let score1 : ℚ :=
    match preferences.date, slot.date with
    | some date, some slotDate =>
      let daysDiff : Nat := (slotDate - date).natAbs
      if daysDiff = 0 then score0 + 50 else score0 - daysDiff * 10
    | _, _ => score0
  let score2 : ℚ :=
    match preferences.time, slot.time with
    | some time, some slotTime =>
      let timeDiff : Nat := getTimeDifference slotTime time
      if timeDiff = 0 then score1 + 30
      else if timeDiff ≤ 30 then score1 + 20
      else if timeDiff ≤ 60 then score1 + 10
      else score1 - min ((timeDiff : ℚ) / 10) 50
    | _, _ => score1
  let score3 : ℚ :=
    match preferences.timeRange, slot.time with
    | some timeRange, some slotTime =>
      if timeRange.start ≤ slotTime ∧ slotTime ≤ timeRange.stop then score2 + 25
      else
        let distToRange : Nat :=
          min ((slotTime - timeRange.start).natAbs) ((slotTime - timeRange.stop).natAbs)
        score2 - min ((distToRange : ℚ) / 10) 30
    | _, _ => score2
  max 0 score3

/-- Date adjustment of `scoreSlot`, as a standalone function of the two
optional dates (used to decompose the accumulator). -/
def dateAdjDiff (daysDiff : Nat) : ℚ :=
  if daysDiff = 0 then 50 else -(daysDiff * 10)

/-- Time adjustment of `scoreSlot` as a function of the minute distance. -/
def timeAdjDiff (timeDiff : Nat) : ℚ :=
  if timeDiff = 0 then 30
  else if timeDiff ≤ 30 then 20
  else if timeDiff ≤ 60 then 10
  else -(min ((timeDiff : ℚ) / 10) 50)

/-- Range adjustment of `scoreSlot` as a function of the slot time. -/
def rangeAdjAt (timeRange : TimeRange) (slotTime : Int) : ℚ :=
  if timeRange.start ≤ slotTime ∧ slotTime ≤ timeRange.stop then 25
  else
    -(min ((min ((slotTime - timeRange.start).natAbs)
              ((slotTime - timeRange.stop).natAbs) : ℚ) / 10) 30)

/-- Total date adjustment, `0` when either date is absent. -/
def dateAdj (date slotDate : Option Int) : ℚ :=
  match date, slotDate with
  | some d, some sd => dateAdjDiff ((sd - d).natAbs)
  | _, _ => 0

/-- Total time adjustment, `0` when either time is absent. -/
def timeAdj (time slotTime : Option Int) : ℚ :=
  match time, slotTime with
  | some t, some st => timeAdjDiff (getTimeDifference st t)
  | _, _ => 0

/-- Total range adjustment, `0` when range or slot time is absent. -/
def rangeAdj (timeRange : Option TimeRange) (slotTime : Option Int) : ℚ :=
  match timeRange, slotTime with
  | some r, some st => rangeAdjAt r st
  | _, _ => 0

/-- The sequential accumulator of `scoreSlot` is the floored sum of the
three independent adjustments. -/
theorem scoreSlot_eq (slot : Slot) (preferences : SchedPreferences) :
    scoreSlot slot preferences =
      max 0 (100 + dateAdj preferences.date slot.date
                 + timeAdj preferences.time slot.time
                 + rangeAdj preferences.timeRange slot.time) := by
  unfold scoreSlot dateAdj timeAdj rangeAdj dateAdjDiff timeAdjDiff rangeAdjAt
  rcases preferences.date with _ | d <;> rcases slot.date with _ | sd <;>
    rcases preferences.time with _ | t <;> rcases slot.time with _ | st <;>
    rcases preferences.timeRange with _ | r <;>
    simp only [] <;>
    repeat' split
  all_goals push_cast
  all_goals ring_nf

/-! Claim C1: the scoring formula, with the adjustments written the way
the specification states them. -/

/-- Date component as the specification words it: `+50` when the dates
are equal, else minus ten times the absolute day difference. -/
def dateComponentSpec (preferences : SchedPreferences) (slot : Slot) : ℚ :=
  match preferences.date, slot.date with
  | some d, some sd => if sd = d then 50 else -(10 * ((sd - d).natAbs : ℚ))
  | _, _ => 0

/-- Time component as the specification words it. -/
def timeComponentSpec (preferences : SchedPreferences) (slot : Slot) : ℚ :=
  match preferences.time, slot.time with
  | some t, some st =>
    let diffMinutes : ℚ := ((st - t).natAbs : ℚ)
    if diffMinutes = 0 then 30
    else if diffMinutes ≤ 30 then 20
    else if diffMinutes ≤ 60 then 10
    else -(min (diffMinutes / 10) 50)
  | _, _ => 0

/-- Time-range component as the specification words it: `+25` inside
`[start, end]` inclusive, else minus
`min(distanceToNearestBoundary / 10, 30)`. -/
def rangeComponentSpec (preferences : SchedPreferences) (slot : Slot) : ℚ :=
  match preferences.timeRange, slot.time with
  | some r, some st =>
    if r.start ≤ st ∧ st ≤ r.stop then 25
    else
      -(min ((min (((st - r.start).natAbs : ℚ)) (((st - r.stop).natAbs : ℚ))) / 10) 30)
  | _, _ => 0

/-- C1: for every slot and preference record, `scoreSlot` equals the
baseline 100 adjusted by the date-proximity, time-proximity and
time-range components exactly as the specification describes them,
floored at 0. -/
theorem scoreSlot_matches_spec (slot : Slot) (preferences : SchedPreferences) :
    scoreSlot slot preferences =
      max 0 (100 + dateComponentSpec preferences slot
                 + timeComponentSpec preferences slot
                 + rangeComponentSpec preferences slot) := by
  rw [scoreSlot_eq]
  congr 1
  have hdate : dateAdj preferences.date slot.date = dateComponentSpec preferences slot := by
    rcases hp : preferences.date with _ | d <;> rcases hs : slot.date with _ | sd <;>
      simp only [dateAdj, dateComponentSpec, dateAdjDiff, hp, hs]
    by_cases h : sd = d
    · have : (sd - d).natAbs = 0 := by omega
      simp [h, this]
    · have : ¬(sd - d).natAbs = 0 := by omega
      simp only [this, h, if_false]
      ring
  have htime : timeAdj preferences.time slot.time = timeComponentSpec preferences slot := by
    rcases hp : preferences.time with _ | t <;> rcases hs : slot.time with _ | st <;>
      simp only [timeAdj, timeComponentSpec, timeAdjDiff, getTimeDifference, hp, hs]
    have h0 : (((st - t).natAbs : ℚ) = 0) ↔ (st - t).natAbs = 0 := by
      exact_mod_cast Nat.cast_eq_zero
    have h30 : (((st - t).natAbs : ℚ) ≤ 30) ↔ (st - t).natAbs ≤ 30 := by
      exact_mod_cast Nat.cast_le (α := ℚ)
    have h60 : (((st - t).natAbs : ℚ) ≤ 60) ↔ (st - t).natAbs ≤ 60 := by
      exact_mod_cast Nat.cast_le (α := ℚ)
    simp only [h0, h30, h60]
  have hrange : rangeAdj preferences.timeRange slot.time = rangeComponentSpec preferences slot := by
    rcases hp : preferences.timeRange with _ | r <;> rcases hs : slot.time with _ | st <;>
      simp only [rangeAdj, rangeComponentSpec, rangeAdjAt, hp, hs, Nat.cast_min]
  rw [hdate, htime, hrange]

/-! Claim C9: monotonicity of `scoreSlot` in the date / time distance. -/

/-- The date adjustment never increases as the day distance grows. -/
theorem dateAdjDiff_antitone {m n : Nat} (h : m ≤ n) :
    dateAdjDiff n ≤ dateAdjDiff m := by
  have hc : ((m : ℚ)) ≤ (n : ℚ) := by exact_mod_cast h
  have hm : (0 : ℚ) ≤ (m : ℚ) := by positivity
  have hn : (0 : ℚ) ≤ (n : ℚ) := by positivity
  unfold dateAdjDiff
  split_ifs <;> first
    | rfl
    | omega
    | linarith

/-- The time adjustment never increases as the minute distance grows. -/
theorem timeAdjDiff_antitone {m n : Nat} (h : m ≤ n) :
    timeAdjDiff n ≤ timeAdjDiff m := by
  have hc : ((m : ℚ)) ≤ (n : ℚ) := by exact_mod_cast h
  have hmin : (0 : ℚ) ≤ min ((n : ℚ) / 10) 50 := by positivity
  unfold timeAdjDiff
  split_ifs <;> first
    | rfl
    | omega
    | linarith
    | (apply neg_le_neg; gcongr)

/-- C9 (amended): `scoreSlot` is monotonically non-increasing in the
absolute day distance between slot date and preferred date, all else
equal; and, provided the preferences carry no `timeRange`, monotonically
non-increasing in the absolute minute distance between slot time and
preferred time.  (With a `timeRange` present the time part fails, see
the counterexample.) -/
theorem scoreSlot_distance_antitone :
    (∀ (p : SchedPreferences) (a b : Slot) (d da db : Int),
        p.date = some d → a.date = some da → b.date = some db →
        a.time = b.time →
        (da - d).natAbs ≤ (db - d).natAbs →
        scoreSlot b p ≤ scoreSlot a p) ∧
    (∀ (p : SchedPreferences) (a b : Slot) (t ta tb : Int),
        p.timeRange = none →
        p.time = some t → a.time = some ta → b.time = some tb →
        a.date = b.date →
        (ta - t).natAbs ≤ (tb - t).natAbs →
        scoreSlot b p ≤ scoreSlot a p) := by
  constructor
  · intro p a b d da db hp ha hb htime hdist
    rw [scoreSlot_eq, scoreSlot_eq, hp, ha, hb, htime]
    have hmono : dateAdj (some d) (some db) ≤ dateAdj (some d) (some da) := by
      simpa [dateAdj] using dateAdjDiff_antitone hdist
    exact max_le_max le_rfl (by linarith)
  · intro p a b t ta tb hr hp ha hb hdate hdist
    rw [scoreSlot_eq, scoreSlot_eq, hp, ha, hb, hdate, hr]
    have hmono : timeAdj (some t) (some tb) ≤ timeAdj (some t) (some ta) := by
      simpa [timeAdj, getTimeDifference] using timeAdjDiff_antitone hdist
    have hr0 : ∀ x, rangeAdj none x = 0 := by intro x; cases x <;> rfl
    rw [hr0, hr0]
    exact max_le_max le_rfl (by linarith)

/-- C9 (counterexample): with a preferred time of 06:00 (360 min) and a
preferred range 12:00–23:00, the slot at 12:00 is farther from the
preferred time than the slot at 10:00 yet scores strictly more (89 vs
64), because entering the preferred range outweighs the extra time
distance.  This refutes time-distance monotonicity as originally
claimed. -/
theorem scoreSlot_time_monotonicity_fails :
    ((600 - 360 : Int).natAbs ≤ (720 - 360 : Int).natAbs) ∧
    scoreSlot ⟨0, none, some 600, true⟩ ⟨none, some 360, some ⟨720, 1380⟩⟩ = 64 ∧
    scoreSlot ⟨1, none, some 720, true⟩ ⟨none, some 360, some ⟨720, 1380⟩⟩ = 89 ∧
    ¬(scoreSlot ⟨1, none, some 720, true⟩ ⟨none, some 360, some ⟨720, 1380⟩⟩ ≤
      scoreSlot ⟨0, none, some 600, true⟩ ⟨none, some 360, some ⟨720, 1380⟩⟩) := by
  refine ⟨by decide, ?_, ?_, ?_⟩ <;>
    norm_num [scoreSlot, getTimeDifference]

/-- C9 (witness for the amended theorem): both monotonicity statements
applied at concrete slots. -/
theorem scoreSlot_distance_antitone_witness :
    scoreSlot ⟨1, some 12, some 540, true⟩ ⟨some 10, some 540, none⟩ ≤
      scoreSlot ⟨0, some 11, some 540, true⟩ ⟨some 10, some 540, none⟩ ∧
    scoreSlot ⟨1, some 11, some 660, true⟩ ⟨some 11, some 540, none⟩ ≤
      scoreSlot ⟨0, some 11, some 600, true⟩ ⟨some 11, some 540, none⟩ := by
  constructor
  · exact scoreSlot_distance_antitone.1 ⟨some 10, some 540, none⟩
      ⟨0, some 11, some 540, true⟩ ⟨1, some 12, some 540, true⟩
      10 11 12 rfl rfl rfl rfl (by decide)
  · exact scoreSlot_distance_antitone.2 ⟨some 11, some 540, none⟩
      ⟨0, some 11, some 600, true⟩ ⟨1, some 11, some 660, true⟩
      540 600 660 rfl rfl rfl rfl rfl (by decide)

/-! Ranking in `findBestSlots`: score, stable sort (descending), take
the top `limit`.  `Array.prototype.sort` with comparator
`(a, b) => b.score - a.score` is guaranteed stable by the language
(ES2019), i.e. it produces the unique score-descending reordering in
which equal-score slots keep their retrieval order; the insertion sort
below produces exactly that list. -/

/-- A slot together with its score (`{ ...slot, score }`). -/
structure ScoredSlot where
  slot : Slot
  score : ℚ
deriving Repr, DecidableEq

/-- Insert into a score-descending list, after every element whose score
is strictly larger and before the first whose score is `≤` (so equal
scores keep the original, earlier-first order). -/
def insertDesc (a : ScoredSlot) : List ScoredSlot → List ScoredSlot
  | [] => [a]
  | b :: bs => if b.score ≤ a.score then a :: b :: bs else b :: insertDesc a bs

/-- Stable sort by score, highest first. -/
def sortByScoreDesc : List ScoredSlot → List ScoredSlot
  | [] => []
  | a :: rest => insertDesc a (sortByScoreDesc rest)

/-- `findBestSlots` after retrieval: keep available slots, score each
against the preferences, sort descending by score, return the top
`limit`.  The Firestore retrieval itself is the external store; the
function receives the retrieved records. -/
def findBestSlots (allSlots : List Slot) (preferences : SchedPreferences)
    (limit : Nat := 5) : List ScoredSlot :=
  let normalizedSlots := allSlots.filter fun s => s.available
  let scoredSlots := normalizedSlots.map fun s => ⟨s, scoreSlot s preferences⟩
  (sortByScoreDesc scoredSlots).take limit

theorem insertDesc_const {c : ℚ} {a : ScoredSlot} {l : List ScoredSlot}
    (ha : a.score = c) (hl : ∀ x ∈ l, x.score = c) :
    insertDesc a l = a :: l := by
  cases l with
  | nil => rfl
  | cons b bs =>
    have hb : b.score = c := hl b (List.mem_cons_self b bs)
    simp [insertDesc, hb, ha]

theorem sortByScoreDesc_const {c : ℚ} :
    ∀ {l : List ScoredSlot}, (∀ x ∈ l, x.score = c) → sortByScoreDesc l = l := by
  intro l
  induction l with
  | nil => intro _; rfl
  | cons a rest ih =>
    intro h
    have hrest : ∀ x ∈ rest, x.score = c := fun x hx => h x (List.mem_cons_of_mem a hx)
    rw [sortByScoreDesc, ih hrest,
      insertDesc_const (h a (List.mem_cons_self a rest)) hrest]

/-- C10: with no date, time or timeRange preference, every slot scores
exactly 100, all retrieved slots tie, and `findBestSlots` returns the
first `limit` available slots in their original retrieval order. -/
theorem findBestSlots_neutral_preferences (preferences : SchedPreferences)
    (hd : preferences.date = none) (ht : preferences.time = none)
    (hr : preferences.timeRange = none) :
    (∀ slot, scoreSlot slot preferences = 100) ∧
    ∀ (slots : List Slot) (limit : Nat),
      findBestSlots slots preferences limit =
        ((slots.filter fun s => s.available).map fun s => ⟨s, 100⟩).take limit := by
  have hscore : ∀ slot, scoreSlot slot preferences = 100 := by
    intro slot
    rw [scoreSlot_eq, hd, ht, hr]
    have h1 : dateAdj none slot.date = 0 := by cases slot.date <;> rfl
    have h2 : timeAdj none slot.time = 0 := by cases slot.time <;> rfl
    have h3 : rangeAdj none slot.time = 0 := by cases slot.time <;> rfl
    rw [h1, h2, h3]
    norm_num
  refine ⟨hscore, ?_⟩
  intro slots limit
  have hmap : ((slots.filter fun s => s.available).map
      fun s => (⟨s, scoreSlot s preferences⟩ : ScoredSlot)) =
      ((slots.filter fun s => s.available).map fun s => ⟨s, 100⟩) := by
    apply List.map_congr_left
    intro s _
    rw [hscore s]
  rw [show findBestSlots slots preferences limit
      = (sortByScoreDesc ((slots.filter fun s => s.available).map
          fun s => ⟨s, scoreSlot s preferences⟩)).take limit from rfl,
    hmap, sortByScoreDesc_const]
  intro x hx
  rcases List.mem_map.mp hx with ⟨s, _, rfl⟩
  rfl

/-- C10 (witness): concrete neutral preferences and slots; the two
retrieved available slots come back in retrieval order with score 100. -/
theorem findBestSlots_neutral_preferences_witness :
    scoreSlot ⟨0, some 3, some 600, true⟩ ⟨none, none, none⟩ = 100 ∧
    findBestSlots [⟨0, some 3, some 600, true⟩, ⟨1, some 9, some 60, true⟩]
        ⟨none, none, none⟩ 5 =
      [⟨⟨0, some 3, some 600, true⟩, 100⟩, ⟨⟨1, some 9, some 60, true⟩, 100⟩] := by
  constructor
  · exact (findBestSlots_neutral_preferences ⟨none, none, none⟩ rfl rfl rfl).1 _
  · rw [(findBestSlots_neutral_preferences ⟨none, none, none⟩ rfl rfl rfl).2]
    rfl

/-! Claim C8: the webhook response when the store yields no slots. -/

/-- One entry of `best_slots` in the webhook response (`rank` is the
1-based position; the moment-formatted display strings are derived
fields of `date`/`time` and are not modelled). -/
structure FormattedSlot where
  rank : Nat
  date : Option Int
  time : Option Int
  score : ℚ
  slot_id : Nat
deriving Repr, DecidableEq

/-- `bestSlots.map((slot, index) => ...)` of the webhook handler. -/
def formatSlots (bestSlots : List ScoredSlot) : List FormattedSlot :=
  bestSlots.enum.map fun p => ⟨p.1 + 1, p.2.slot.date, p.2.slot.time, p.2.score, p.2.slot.id⟩

/-- The response record assembled by `/webhook/check-timeslots`
(`success`, `has_slots`, `total_matches`, `best_slots`). -/
structure TimeslotsResponse where
  success : Bool
  has_slots : Bool
  total_matches : Nat
  best_slots : List FormattedSlot
deriving Repr, DecidableEq

/-- The handler's response construction from the matched slots. -/
def checkTimeslotsResponse (bestSlots : List ScoredSlot) : TimeslotsResponse :=
  { success := decide (bestSlots.length > 0)
    has_slots := decide (bestSlots.length > 0)
    total_matches := bestSlots.length
    best_slots := formatSlots bestSlots }

/-- C8: when the slot store yields zero slots, the matcher completes
normally with the empty list, and the response carries
`has_slots = false` and `best_slots = []`. -/
theorem checkTimeslots_zero_slots (preferences : SchedPreferences) (limit : Nat) :
    findBestSlots [] preferences limit = [] ∧
    checkTimeslotsResponse (findBestSlots [] preferences limit) =
      ⟨false, false, 0, []⟩ := by
  have h : findBestSlots [] preferences limit = [] := by
    simp [findBestSlots, sortByScoreDesc]
  exact ⟨h, by rw [h]; rfl⟩

/-! ### DOB normalizer, chrono/date-fns variant

`normalizeDateOfBirth` first lets chrono-node (with
`forwardDate: false`) and then a date-fns format loop produce a parsed
`Date`; both parsers are external libraries, so the embedding starts
from their combined outcome (`parsedDate`, `none` for an invalid or
missing date).  Everything after the parse — `validateDOB`, the success
and failure returns, and the HTTP handler — is translated from the
source. -/

/-- A calendar date (year / month / day, month 1–12). -/
structure CalDate where
  year : Int
  month : Int
  day : Int
deriving Repr, DecidableEq

/-- `validateDOB(date)`: reject an invalid date (`none`), then reject a
year above `currentYear` or below `currentYear - 120`. -/
def validateDOB (currentYear : Int) : Option CalDate → Bool
  | none => false
  | some date =>
    if date.year > currentYear || date.year < currentYear - 120 then false else true

/-- `normalizeDateOfBirth` after the parse: return the formatted date
when `parsedDate && validateDOB(parsedDate)`, else `null`.
(`format(parsedDate, 'yyyy-MM-dd')` is the identity on the embedded
calendar date.) -/
def normalizeFromParsed (currentYear : Int) (parsedDate : Option CalDate) :
    Option CalDate :=
  match parsedDate with
  | some d => if validateDOB currentYear (some d) then some d else none
  | none => none

/-- Response of `/api/enhanced-dob-normalize` (chrono/date-fns variant):
`200 {dob_iso, type:'success'}` or `422 {dob_iso:null,
type:'unable_to_normalize'}`. -/
structure DobResponse where
  status : Nat
  dob_iso : Option CalDate
  type : String
deriving Repr, DecidableEq

/-- The handler body of the chrono/date-fns DOB service, as a function
of the parsed date. -/
def dobEndpoint (currentYear : Int) (parsedDate : Option CalDate) : DobResponse :=
  match normalizeFromParsed currentYear parsedDate with
  | some d => ⟨200, some d, "success"⟩
  | none => ⟨422, none, "unable_to_normalize"⟩

/-- C2 (amended): in the chrono/date-fns DOB normalizer, every input
whose parsed date has a year outside `[currentYear - 120, currentYear]`
gets the failure response `(dob_iso := none, type :=
"unable_to_normalize")`, however well-formed the input otherwise is.
(The enhanced DOB service checks `[min_year, max_year]`, by default
`[1900, currentYear]`, instead — see the counterexample.) -/
theorem dobEndpoint_year_out_of_band (currentYear : Int) (d : CalDate)
    (hOut : d.year > currentYear ∨ d.year < currentYear - 120) :
    dobEndpoint currentYear (some d) = ⟨422, none, "unable_to_normalize"⟩ := by
  have hv : validateDOB currentYear (some d) = false := by
    unfold validateDOB
    rcases hOut with h | h <;> simp [h]
  unfold dobEndpoint normalizeFromParsed
  simp [hv]

/-- C2 (witness): a parsed date of 1800 with current year 2026 is
rejected. -/
theorem dobEndpoint_year_out_of_band_witness :
    ((1800 : Int) > 2026 ∨ (1800 : Int) < 2026 - 120) ∧
    dobEndpoint 2026 (some ⟨1800, 1, 1⟩) = ⟨422, none, "unable_to_normalize"⟩ :=
  ⟨Or.inr (by decide), dobEndpoint_year_out_of_band 2026 ⟨1800, 1, 1⟩ (Or.inr (by decide))⟩

/-- Strict calendar order, `laterThan a b` iff `a` is after `b`. -/
def laterThan (a b : CalDate) : Bool :=
  a.year > b.year ||
    (a.year == b.year && (a.month > b.month || (a.month == b.month && a.day > b.day)))

/-- C7 (code bug evidence): `validateDOB` only bounds the year, so a
date later in the current year than "today" passes validation and is
returned as a successful DOB.  Concretely, on a server date of
2026-10-11 the input `"12/25/2026"` parses to 2026-12-25 (both chrono
and the `'MM/dd/yyyy'` date-fns format yield that date) and the service
answers `type:'success'` with the future date — contradicting the
invariant that a DOB is never in the future, and the code's own comment
"ensuring we don't parse dates in the future". -/
theorem dobEndpoint_accepts_future_date :
    validateDOB 2026 (some ⟨2026, 12, 25⟩) = true ∧
    dobEndpoint 2026 (some ⟨2026, 12, 25⟩) = ⟨200, some ⟨2026, 12, 25⟩, "success"⟩ ∧
    laterThan ⟨2026, 12, 25⟩ ⟨2026, 10, 11⟩ = true := by
  refine ⟨rfl, rfl, rfl⟩

/-! ### Characters, scanners and replacement drivers

The services transform text with JavaScript regular expressions.  The
embeddings below implement those patterns as explicit scanners over
`List Char`: global replacement walks the string left to right, matches
are leftmost, quantifiers are greedy (with the backtracking the concrete
patterns need), `\b` compares the word-character status of the adjacent
characters, and — important for faithfulness — a pattern built from a
template literal containing `\b` (instead of `\\b`) contains a literal
backspace character (U+0008), exactly as in JavaScript.  Replacement
scanners carry an explicit fuel argument (initialised to the string
length; every step consumes at least one character). -/

/-- ASCII lowercasing (`String.prototype.toLowerCase` on the inputs at
hand). -/
def asciiLowerChar (c : Char) : Char :=
  if 'A' ≤ c && c ≤ 'Z' then Char.ofNat (c.toNat + 32) else c

/-- Lowercase a string. -/
def asciiLower (s : List Char) : List Char := s.map asciiLowerChar

/-- `\d` of JS regexes. -/
def isDigitCh (c : Char) : Bool := '0' ≤ c && c ≤ '9'

/-- `[a-z]` of JS regexes. -/
def isLowerAZ (c : Char) : Bool := 'a' ≤ c && c ≤ 'z'

/-- `\w` of JS regexes: `[A-Za-z0-9_]`. -/
def isWordCh (c : Char) : Bool :=
  isLowerAZ c || ('A' ≤ c && c ≤ 'Z') || isDigitCh c || c = '_'

/-- `\s` of JS regexes (restricted to the whitespace characters that can
occur in this development). -/
def isWsCh (c : Char) : Bool := c = ' ' || c = '\t' || c = '\n' || c = '\r'

/-- Word-character status of an optional character (`none` = beyond the
ends of the string, never a word character). -/
def isWordOpt : Option Char → Bool
  | none => false
  | some c => isWordCh c

/-- Decimal digits of a number, most significant first. -/
def natDigits (n : Nat) : List Char := Nat.toDigits 10 n

/-- Numeric value of a digit string. -/
def digitsToNat (cs : List Char) : Nat :=
  cs.foldl (fun a c => a * 10 + (c.toNat - '0'.toNat)) 0

/-- Substring test (`String.prototype.includes`). -/
def containsSub (sub : List Char) : List Char → Bool
  | [] => sub.isEmpty
  | c :: rest => sub.isPrefixOf (c :: rest) || containsSub sub rest

/-- Length of the leading whitespace run. -/
def wsRunLen (s : List Char) : Nat := (s.takeWhile isWsCh).length

/-- Length of the leading `\w` run. -/
def wordRunLen (s : List Char) : Nat := (s.takeWhile isWordCh).length

/-- `trim()`. -/
def trimWs (s : List Char) : List Char :=
  ((s.dropWhile isWsCh).reverse.dropWhile isWsCh).reverse

/-- Collapse runs of spaces left by `replace(/\s+/g, ' ')`. -/
def squashSpaces : List Char → List Char
  | [] => []
  | [c] => [c]
  | a :: b :: rest =>
    if a = ' ' && b = ' ' then squashSpaces (b :: rest)
    else a :: squashSpaces (b :: rest)

/-- `replace(/\s+/g, ' ')`: every whitespace run becomes one space. -/
def replaceWsRuns (s : List Char) : List Char :=
  squashSpaces (s.map fun c => if isWsCh c then ' ' else c)

/-- `split(/\s+/)` (with the JS leading-empty-piece behaviour). -/
def splitWsGo : Nat → List Char → List Char → List (List Char)
  | _, [], acc => [acc.reverse]
  | 0, s, acc => [acc.reverse ++ s]
  | fuel + 1, c :: rest, acc =>
    if isWsCh c then acc.reverse :: splitWsGo fuel (rest.dropWhile isWsCh) []
    else splitWsGo fuel rest (c :: acc)

/-- `split(/\s+/)`. -/
def splitWsRuns (s : List Char) : List (List Char) := splitWsGo s.length s []

/-- Look up a word in an association table. -/
def lookupW (tbl : List (List Char × Nat)) (k : List Char) : Option Nat :=
  (tbl.find? fun p => p.1 == k).map (·.2)

/-- Global replacement of a plain literal pattern (used for the patterns
that were built with `\b` in a template literal: the pattern then
contains literal backspace characters and is matched verbatim). -/
def replaceLit (pat repl : List Char) : Nat → List Char → List Char
  | 0, s => s
  | _, [] => []
  | fuel + 1, c :: rest =>
    if pat ≠ [] && pat.isPrefixOf (c :: rest) then
      repl ++ replaceLit pat repl fuel ((c :: rest).drop pat.length)
    else c :: replaceLit pat repl fuel rest

/-- Global replacement of `\b<literal>\b` (a correctly built
word-boundary pattern): the literal must be flanked by word-boundary
positions.  `prev` is the character just before the scan position. -/
def replaceWordB (word repl : List Char) : Nat → Option Char → List Char → List Char
  | 0, _, s => s
  | _, _, [] => []
  | fuel + 1, prev, c :: rest =>
    if word ≠ [] && word.isPrefixOf (c :: rest) &&
        (isWordOpt prev != isWordCh c) &&
        (isWordOpt word.getLast? != isWordOpt ((c :: rest).drop word.length).head?) then
      repl ++ replaceWordB word repl fuel word.getLast? ((c :: rest).drop word.length)
    else c :: replaceWordB word repl fuel (some c) rest

/-- Run `replaceWordB` over a whole table, one global pass per entry, in
table order (JS object iteration order), replacing each word by the
decimal digits of its value. -/
def replaceTableWordB (tbl : List (List Char × Nat)) (s : List Char) : List Char :=
  tbl.foldl (fun acc p => replaceWordB p.1 (natDigits p.2) acc.length none acc) s

/-! ### DOB normalizer, enhanced variant (dob-normalize service)

Word tables, in JS object insertion order (`Object.entries` iterates in
that order). -/

/-- `ones` of `convertWordNumbers`. -/
def onesTbl : List (List Char × Nat) :=
  [("zero".data, 0), ("one".data, 1), ("two".data, 2), ("three".data, 3),
   ("four".data, 4), ("five".data, 5), ("six".data, 6), ("seven".data, 7),
   ("eight".data, 8), ("nine".data, 9)]

/-- `teens` of `convertWordNumbers`. -/
def teensTbl : List (List Char × Nat) :=
  [("ten".data, 10), ("eleven".data, 11), ("twelve".data, 12), ("thirteen".data, 13),
   ("fourteen".data, 14), ("fifteen".data, 15), ("sixteen".data, 16),
   ("seventeen".data, 17), ("eighteen".data, 18), ("nineteen".data, 19)]

/-- `tens` of `convertWordNumbers`. -/
def tensTbl : List (List Char × Nat) :=
  [("twenty".data, 20), ("thirty".data, 30), ("forty".data, 40), ("fifty".data, 50),
   ("sixty".data, 60), ("seventy".data, 70), ("eighty".data, 80), ("ninety".data, 90)]

/-- `ordinals` of `convertWordNumbers`. -/
def ordinalsTbl : List (List Char × Nat) :=
  [("first".data, 1), ("second".data, 2), ("third".data, 3), ("fourth".data, 4),
   ("fifth".data, 5), ("sixth".data, 6), ("seventh".data, 7), ("eighth".data, 8),
   ("ninth".data, 9), ("tenth".data, 10), ("eleventh".data, 11), ("twelfth".data, 12),
   ("thirteenth".data, 13), ("fourteenth".data, 14), ("fifteenth".data, 15),
   ("sixteenth".data, 16), ("seventeenth".data, 17), ("eighteenth".data, 18),
   ("nineteenth".data, 19), ("twentieth".data, 20), ("twenty-first".data, 21),
   ("twenty-second".data, 22), ("twenty-third".data, 23), ("twenty-fourth".data, 24),
   ("twenty-fifth".data, 25), ("twenty-sixth".data, 26), ("twenty-seventh".data, 27),
   ("twenty-eighth".data, 28), ("twenty-ninth".data, 29), ("thirtieth".data, 30),
   ("thirty-first".data, 31)]

/-- `{...ones, ...teens, ...tens}` (spread keeps insertion order). -/
def allNumbersTbl : List (List Char × Nat) := onesTbl ++ teensTbl ++ tensTbl

/-- One global pass of the compound pattern `` `${tenWord}[- ]${oneWord}` ``
(no word boundaries, the separator is a mandatory single space or
hyphen), replacing each occurrence by the decimal sum. -/
def replaceSepPair (a b rep : List Char) : Nat → List Char → List Char
  | 0, s => s
  | _, [] => []
  | fuel + 1, c :: rest =>
    let s := c :: rest
    if a.isPrefixOf s &&
        (match (s.drop a.length).head? with
         | some x => x = '-' || x = ' '
         | none => false) &&
        b.isPrefixOf (s.drop (a.length + 1)) then
      rep ++ replaceSepPair a b rep fuel (s.drop (a.length + 1 + b.length))
    else c :: replaceSepPair a b rep fuel rest

/-- The nested compound-number loop of `convertWordNumbers`: for every
tens word and every ones word (in table order), one global pass. -/
def dobCompoundPass (s : List Char) : List Char :=
  tensTbl.foldl
    (fun acc tp =>
      onesTbl.foldl
        (fun acc2 op =>
          replaceSepPair tp.1 op.1 (natDigits (tp.2 + op.2)) acc2.length acc2)
        acc)
    s

/-- Tens words of `parseYearExpressions` (`tensMap`), in alternation
order of the `nineteen` pattern. -/
def tensYearTbl : List (List Char × Nat) := tensTbl

/-- Ones words of `parseYearExpressions` (`onesMap`). -/
def onesYearTbl : List (List Char × Nat) :=
  [("one".data, 1), ("two".data, 2), ("three".data, 3), ("four".data, 4),
   ("five".data, 5), ("six".data, 6), ("seven".data, 7), ("eight".data, 8),
   ("nine".data, 9)]

/-- `numbersMap` of the `two thousand` pattern. -/
def numbersMap20 : List (List Char × Nat) :=
  [("one".data, 1), ("two".data, 2), ("three".data, 3), ("four".data, 4),
   ("five".data, 5), ("six".data, 6), ("seven".data, 7), ("eight".data, 8),
   ("nine".data, 9), ("ten".data, 10), ("eleven".data, 11), ("twelve".data, 12),
   ("thirteen".data, 13), ("fourteen".data, 14), ("fifteen".data, 15),
   ("sixteen".data, 16), ("seventeen".data, 17), ("eighteen".data, 18),
   ("nineteen".data, 19), ("twenty".data, 20)]

/-- Match `/nineteen\s+(tens)(?:\s+(\w+))?/` at the head of `s`; return
consumed length and replacement (`1900 + tens (+ ones when the optional
word is in `onesMap`)`). -/
def matchNineteenAt (s : List Char) : Option (Nat × List Char) :=
  if ("nineteen".data).isPrefixOf s then
    let s1 := s.drop 8
    let w1 := wsRunLen s1
    if w1 = 0 then none
    else
      let s2 := s1.drop w1
      match tensYearTbl.findSome? (fun p => if p.1.isPrefixOf s2 then some p else none) with
      | none => none
      | some tp =>
        let s3 := s2.drop tp.1.length
        let w2 := wsRunLen s3
        let s4 := s3.drop w2
        let r := wordRunLen s4
        let base := 8 + w1 + tp.1.length
        if w2 > 0 && r > 0 then
          let onesWord := s4.take r
          let year := 1900 + tp.2 +
            (match lookupW onesYearTbl onesWord with
             | some v => v
             | none => 0)
          some (base + w2 + r, natDigits year)
        else some (base, natDigits (1900 + tp.2))
  else none

/-- The `two thousand` replacement callback of `parseYearExpressions`. -/
def twoThousandCallback (matched firstW : List Char) (secondW : Option (List Char)) :
    List Char :=
  match lookupW numbersMap20 firstW with
  | some v => natDigits (2000 + v)
  | none =>
    if firstW == "twenty".data then
      match secondW with
      | some sw =>
        match lookupW numbersMap20 sw with
        | some v2 => natDigits (2020 + v2)
        | none => matched
      | none => matched
    else matched

/-- Match `/two\s+thousand(?:\s+and)?(?:\s+(\w+))?(?:\s+(\w+))?/` at the
head of `s`. -/
def matchTwoThousandAt (s : List Char) : Option (Nat × List Char) :=
  if ("two".data).isPrefixOf s then
    let s1 := s.drop 3
    let w1 := wsRunLen s1
    if w1 = 0 then none
    else
      let s2 := s1.drop w1
      if ("thousand".data).isPrefixOf s2 then
        let s3 := s2.drop 8
        let w2 := wsRunLen s3
        let andLen := if w2 > 0 && ("and".data).isPrefixOf (s3.drop w2) then w2 + 3 else 0
        let s5 := s3.drop andLen
        let w3 := wsRunLen s5
        let s6 := s5.drop w3
        let r1 := wordRunLen s6
        if w3 > 0 && r1 > 0 then
          let firstW := s6.take r1
          let s7 := s6.drop r1
          let w4 := wsRunLen s7
          let s8 := s7.drop w4
          let r2 := wordRunLen s8
          let secondLen := if w4 > 0 && r2 > 0 then w4 + r2 else 0
          let consumed := 3 + w1 + 8 + andLen + w3 + r1 + secondLen
          let secondW := if w4 > 0 && r2 > 0 then some (s8.take r2) else none
          some (consumed, twoThousandCallback (s.take consumed) firstW secondW)
        else some (3 + w1 + 8 + andLen, "2000".data)
      else none
  else none

/-- Global replacement driver for a head matcher returning (consumed,
replacement); non-matching positions advance one character. -/
def replaceByMatcher (m : List Char → Option (Nat × List Char)) :
    Nat → List Char → List Char
  | 0, s => s
  | _, [] => []
  | fuel + 1, c :: rest =>
    match m (c :: rest) with
    | some (n, rep) =>
      if n = 0 then c :: replaceByMatcher m fuel rest
      else rep ++ replaceByMatcher m fuel ((c :: rest).drop n)
    | none => c :: replaceByMatcher m fuel rest

/-- `parseYearExpressions(input)`: the `nineteen NN` pass followed by
the `two thousand (and) N` pass.  (The patterns carry the `i` flag; the
pipeline lowercases its input before this point, and the embedding
matches the lowercase spellings.) -/
def parseYearExpressions (input : List Char) : List Char :=
  let r1 := replaceByMatcher matchNineteenAt input.length input
  replaceByMatcher matchTwoThousandAt r1.length r1

/-- Match `/(\d+)(st|nd|rd|th)\b/` at the head of `s` (the cleanup of
ordinal suffixes at the end of `convertWordNumbers`). -/
def matchOrdSuffixAt (s : List Char) : Option (Nat × List Char) :=
  let d := (s.takeWhile isDigitCh).length
  if d = 0 then none
  else
    let s1 := s.drop d
    let suf := s1.take 2
    if (suf == "st".data || suf == "nd".data || suf == "rd".data || suf == "th".data) &&
        !isWordOpt (s1.drop 2).head? then
      some (d + 2, s.take d)
    else none

/-- `convertWordNumbers(input)` of the enhanced DOB service: lowercase,
replace ordinals, collapse compound numbers, replace remaining number
words, run `parseYearExpressions`, and strip ordinal suffixes. -/
def convertWordNumbers (input : List Char) : List Char :=
  let r0 := asciiLower input
  let r1 := replaceTableWordB ordinalsTbl r0
  let r2 := dobCompoundPass r1
  let r3 := replaceTableWordB allNumbersTbl r2
  let r4 := parseYearExpressions r3
  replaceByMatcher matchOrdSuffixAt r4.length r4

/-! Strict moment-format parsing used by `tryStandardFormats`.  A format
is a token list; strict parsing consumes the whole input, `MM`/`DD`/`YY`
take exactly two digits, `M`/`D` one or two (greedily; they are always
followed by non-digit separators in the table), `YYYY` exactly four, and
month-name tokens match case-insensitively.  moment maps a `YY` year via
its two-digit rule (`> 68` → 1900s, else 2000s); the handler's own
century adjustment afterwards only fires for `year < 100` and is
therefore dead, but is embedded as written. -/

/-- Format tokens of the moment format strings in the source table. -/
inductive FTok
  | Y4 | Y2 | M2 | M1 | D2 | D1 | monFull | monAbbr | lit (c : Char)
deriving Repr, DecidableEq, BEq

/-- Full month names (moment locale `en`), with month numbers. -/
def monthsFull : List (List Char × Nat) :=
  [("january".data, 1), ("february".data, 2), ("march".data, 3), ("april".data, 4),
   ("may".data, 5), ("june".data, 6), ("july".data, 7), ("august".data, 8),
   ("september".data, 9), ("october".data, 10), ("november".data, 11),
   ("december".data, 12)]

/-- Abbreviated month names. -/
def monthsAbbr : List (List Char × Nat) :=
  [("jan".data, 1), ("feb".data, 2), ("mar".data, 3), ("apr".data, 4),
   ("may".data, 5), ("jun".data, 6), ("jul".data, 7), ("aug".data, 8),
   ("sep".data, 9), ("oct".data, 10), ("nov".data, 11), ("dec".data, 12)]

/-- Exactly `n` leading digits, with value and rest. -/
def exactDigits (n : Nat) (s : List Char) : Option (Nat × List Char) :=
  let ds := s.take n
  if ds.length = n && ds.all isDigitCh then some (digitsToNat ds, s.drop n) else none

/-- One or two leading digits, greedily. -/
def oneOrTwoDigits (s : List Char) : Option (Nat × List Char) :=
  match s with
  | [] => none
  | [a] => if isDigitCh a then some (digitsToNat [a], []) else none
  | a :: b :: rest =>
    if isDigitCh a then
      if isDigitCh b then some (digitsToNat [a, b], rest)
      else some (digitsToNat [a], b :: rest)
    else none

/-- Case-insensitive month-name match against a name table. -/
def matchMonthName (names : List (List Char × Nat)) (s : List Char) :
    Option (Nat × List Char) :=
  names.findSome? fun p =>
    if asciiLower (s.take p.1.length) == p.1 then some (p.2, s.drop p.1.length)
    else none

/-- moment's two-digit-year rule. -/
def momentTwoDigitYear (n : Nat) : Int := if n > 68 then 1900 + n else 2000 + n

/-- Accumulated year/month/day while running a format. -/
structure YMDAcc where
  y : Option Int := none
  m : Option Nat := none
  d : Option Nat := none
deriving Repr, DecidableEq

/-- Run a format over the input (strict: full consumption). -/
def runFmt : List FTok → List Char → YMDAcc → Option YMDAcc
  | [], [], acc => some acc
  | [], _ :: _, _ => none
  | t :: ts, s, acc =>
    match t with
    | .Y4 => (exactDigits 4 s).bind fun p => runFmt ts p.2 { acc with y := some (p.1 : Int) }
    | .Y2 => (exactDigits 2 s).bind fun p =>
        runFmt ts p.2 { acc with y := some (momentTwoDigitYear p.1) }
    | .M2 => (exactDigits 2 s).bind fun p => runFmt ts p.2 { acc with m := some p.1 }
    | .M1 => (oneOrTwoDigits s).bind fun p => runFmt ts p.2 { acc with m := some p.1 }
    | .D2 => (exactDigits 2 s).bind fun p => runFmt ts p.2 { acc with d := some p.1 }
    | .D1 => (oneOrTwoDigits s).bind fun p => runFmt ts p.2 { acc with d := some p.1 }
    | .monFull => (matchMonthName monthsFull s).bind fun p =>
        runFmt ts p.2 { acc with m := some p.1 }
    | .monAbbr => (matchMonthName monthsAbbr s).bind fun p =>
        runFmt ts p.2 { acc with m := some p.1 }
    | .lit c =>
      match s with
      | x :: rest => if x = c then runFmt ts rest acc else none
      | [] => none

/-- `year % 4 == 0 && year % 100 !== 0 || year % 400 == 0`. -/
def isLeapYear (y : Int) : Bool :=
  (y % 4 == 0 && y % 100 != 0) || y % 400 == 0

/-- Days in a month (month 1-based). -/
def daysInMonth (y : Int) (m : Nat) : Nat :=
  if m = 2 then (if isLeapYear y then 29 else 28)
  else if m = 4 || m = 6 || m = 9 || m = 11 then 30
  else 31

/-- Validity of a strict-parsed (or object-built) moment date. -/
def momentValidYMD (y : Int) (m d : Nat) : Bool :=
  1 ≤ m && m ≤ 12 && 1 ≤ d && d ≤ daysInMonth y m

/-- `validateDateComponents(momentObj)` of the enhanced service: reject
Feb 29 outside leap years and days beyond the month's length. -/
def validateDateComponents (y : Int) (m d : Nat) : Bool :=
  (if m = 2 && d = 29 then isLeapYear y else true) && d ≤ daysInMonth y m

/-- The handler's century adjustment for 2-digit-year formats.  (Dead in
practice: moment already returns a 4-digit year.) -/
def adjustTwoDigitYear (currentYear year : Int) : Int :=
  let century := currentYear / 100 * 100
  let cutoff := currentYear - century + 20
  if year > cutoff then century - 100 + year else century + year

/-- Shorthand for the numeric three-token formats. -/
def numFmt (a : FTok) (s1 : Char) (b : FTok) (s2 : Char) (c : FTok) : List FTok :=
  [a, .lit s1, b, .lit s2, c]

/-- The `formats` table of `tryStandardFormats`, in source order. -/
def standardFormats : List (List FTok) :=
  [ numFmt .Y4 '-' .M2 '-' .D2, numFmt .Y4 '/' .M2 '/' .D2, numFmt .Y4 '.' .M2 '.' .D2,
    numFmt .M2 '/' .D2 '/' .Y4, numFmt .M2 '-' .D2 '-' .Y4, numFmt .M2 '.' .D2 '.' .Y4,
    numFmt .M1 '/' .D1 '/' .Y4, numFmt .M1 '-' .D1 '-' .Y4, numFmt .M1 '.' .D1 '.' .Y4,
    numFmt .M2 '/' .D2 '/' .Y2, numFmt .M2 '-' .D2 '-' .Y2,
    numFmt .M1 '/' .D1 '/' .Y2, numFmt .M1 '-' .D1 '-' .Y2,
    numFmt .D2 '/' .M2 '/' .Y4, numFmt .D2 '-' .M2 '-' .Y4, numFmt .D2 '.' .M2 '.' .Y4,
    numFmt .D1 '/' .M1 '/' .Y4, numFmt .D1 '-' .M1 '-' .Y4, numFmt .D1 '.' .M1 '.' .Y4,
    [.monFull, .lit ' ', .D2, .lit ' ', .Y4],
    [.monFull, .lit ' ', .D2, .lit ',', .lit ' ', .Y4],
    [.monFull, .lit ' ', .D1, .lit ' ', .Y4],
    [.monFull, .lit ' ', .D1, .lit ',', .lit ' ', .Y4],
    [.monAbbr, .lit ' ', .D2, .lit ' ', .Y4],
    [.monAbbr, .lit ' ', .D2, .lit ',', .lit ' ', .Y4],
    [.monAbbr, .lit ' ', .D1, .lit ' ', .Y4],
    [.monAbbr, .lit ' ', .D1, .lit ',', .lit ' ', .Y4],
    [.D2, .lit ' ', .monFull, .lit ' ', .Y4],
    [.D1, .lit ' ', .monFull, .lit ' ', .Y4],
    [.D2, .lit ' ', .monAbbr, .lit ' ', .Y4],
    [.D1, .lit ' ', .monAbbr, .lit ' ', .Y4],
    [.Y4, .M2, .D2], [.M2, .D2, .Y4], [.D2, .M2, .Y4] ]

/-- `tryStandardFormats(dateStr, minYear, maxYear)`: first format that
parses strictly, is a valid date, lands in the year range and passes the
re-validation and component checks. -/
def tryStandardFormats (currentYear minYear maxYear : Int) (dateStr : List Char) :
    Option CalDate :=
  standardFormats.findSome? fun fmt =>
    match runFmt fmt dateStr {} with
    | none => none
    | some acc =>
      match acc.y, acc.m, acc.d with
      | some y0, some m, some d =>
        if momentValidYMD y0 m d then
          let hasY2 := fmt.contains FTok.Y2 && !fmt.contains FTok.Y4
          let year := if hasY2 && y0 < 100 then adjustTwoDigitYear currentYear y0 else y0
          if minYear ≤ year && year ≤ maxYear then
            if momentValidYMD year m d && validateDateComponents year m d then
              some ⟨year, (m : Int), (d : Int)⟩
            else none
          else none
        else none
      | _, _, _ => none

/-- Split a digit string into three fields of the given widths. -/
def contSplit3 (a b c : Nat) (s : List Char) : Option (Nat × Nat × Nat) :=
  if s.length = a + b + c then
    some (digitsToNat (s.take a), digitsToNat ((s.drop a).take b),
          digitsToNat (s.drop (a + b)))
  else none

/-- The candidate (month, day, year) splits of `parseContinuousNumeric`,
in source pattern order: `MDDYY`, `MMDDYY`, `MDDYYYY`, `MMDDYYYY`,
`YYYYMMDD`. -/
def contCandidates (s : List Char) : List (Nat × Nat × Nat) :=
  List.filterMap id
    [ contSplit3 1 2 2 s,
      contSplit3 2 2 2 s,
      contSplit3 1 2 4 s,
      contSplit3 2 2 4 s,
      (contSplit3 4 2 2 s).map fun p => (p.2.1, p.2.2, p.1) ]

/-- The per-pattern validation of `parseContinuousNumeric`: 2-digit-year
adjustment, component ranges, year range, moment-object validity and
`validateDateComponents`. -/
def contTry (minYear maxYear : Int) (mdy : Nat × Nat × Nat) : Option CalDate :=
  let month := mdy.1
  let day := mdy.2.1
  let y0 := mdy.2.2
  let year : Int :=
    if y0 < 100 then (if y0 < 50 then 2000 + y0 else 1900 + y0) else (y0 : Int)
  if 1 ≤ month && month ≤ 12 && 1 ≤ day && day ≤ 31 &&
      minYear ≤ year && year ≤ maxYear then
    if day ≤ daysInMonth year month && validateDateComponents year month day then
      some ⟨year, (month : Int), (day : Int)⟩
    else none
  else none

/-- `parseContinuousNumeric(input, minYear, maxYear)`: strip non-digits,
require 5–8 digits, and try the digit-grouping patterns in order. -/
def parseContinuousNumeric (minYear maxYear : Int) (input : List Char) :
    Option CalDate :=
  let cleanNumeric := input.filter isDigitCh
  if 5 ≤ cleanNumeric.length && cleanNumeric.length ≤ 8 then
    (contCandidates cleanNumeric).findSome? (contTry minYear maxYear)
  else none

/-- Head match of the `voice_numeric` pattern
`/(\d{1,2})\s+(\d{2})\s+(\d{2})/` (greedy first group, so two digits are
tried before one). -/
def matchVoiceNumericAt (s : List Char) : Option (Nat × Nat × Nat) :=
  [2, 1].findSome? fun l1 =>
    if (s.take l1).length = l1 && (s.take l1).all isDigitCh then
      let g1 := digitsToNat (s.take l1)
      let s1 := s.drop l1
      let w1 := wsRunLen s1
      if w1 = 0 then none
      else
        (exactDigits 2 (s1.drop w1)).bind fun p2 =>
          let w2 := wsRunLen p2.2
          if w2 = 0 then none
          else (exactDigits 2 (p2.2.drop w2)).map fun p3 => (g1, p2.1, p3.1)
    else none

/-- Leftmost `voice_numeric` match (`String.prototype.match` without the
global flag returns only the first match). -/
def findVoiceNumeric : List Char → Option (Nat × Nat × Nat)
  | [] => none
  | c :: rest =>
    match matchVoiceNumericAt (c :: rest) with
    | some t => some t
    | none => findVoiceNumeric rest

/-- Head match of the `month_day_year` pattern
`/(month)\s+(\d{1,2})(?:\s+(\d{4}))?/i`. -/
def matchMonthDayYearAt (s : List Char) : Option (Nat × Nat × Option Nat) :=
  (monthsFull.findSome? fun p =>
      if asciiLower (s.take p.1.length) == p.1 then some p else none).bind fun p =>
    let s1 := s.drop p.1.length
    let w1 := wsRunLen s1
    if w1 = 0 then none
    else
      (oneOrTwoDigits (s1.drop w1)).bind fun pd =>
        let w2 := wsRunLen pd.2
        let oy := if w2 > 0 then (exactDigits 4 (pd.2.drop w2)).map (·.1) else none
        some (p.2, pd.1, oy)

/-- Leftmost `month_day_year` match. -/
def findMonthDayYear : List Char → Option (Nat × Nat × Option Nat)
  | [] => none
  | c :: rest =>
    match matchMonthDayYearAt (c :: rest) with
    | some t => some t
    | none => findMonthDayYear rest

/-- The shared validation applied to a voice-pattern parse. -/
def voiceValidate (minYear maxYear year : Int) (month day : Nat) : Option CalDate :=
  if 1 ≤ month && month ≤ 12 && 1 ≤ day && day ≤ 31 &&
      minYear ≤ year && year ≤ maxYear then
    if day ≤ daysInMonth year month && validateDateComponents year month day then
      some ⟨year, (month : Int), (day : Int)⟩
    else none
  else none

/-- `parseVoicePatterns(input, minYear, maxYear)`: the `voice_numeric`
pattern, then `month_day_year` (whose missing year defaults to the
current year). -/
def parseVoicePatterns (currentYear minYear maxYear : Int) (input : List Char) :
    Option CalDate :=
  match
    (match findVoiceNumeric input with
     | some (m, d, y2) =>
       voiceValidate minYear maxYear (if y2 < 50 then 2000 + y2 else 1900 + y2) m d
     | none => none)
  with
  | some dte => some dte
  | none =>
    match findMonthDayYear input with
    | some (m, d, oy) =>
      voiceValidate minYear maxYear
        (match oy with | some y => (y : Int) | none => currentYear) m d
    | none => none

/-- `normalizeDateOfBirth` of the enhanced service: the five-strategy
chain.  `fuzzyParse` stands for the whole last-resort `fuzzyParsing`
(moment's loose parser plus its checks), an external collaborator; it is
only attempted when the validation level is not `"strict"`. -/
def normalizeDateOfBirthEnhanced (fuzzyParse : List Char → Option CalDate)
    (currentYear minYear maxYear : Int) (validationLevel : String)
    (rawDob : List Char) : Option CalDate :=
  let cleaned := trimWs rawDob
  match tryStandardFormats currentYear minYear maxYear cleaned with
  | some d => some d
  | none =>
    match parseContinuousNumeric minYear maxYear cleaned with
    | some d => some d
    | none =>
      let wordConverted := convertWordNumbers cleaned
      let cleaned2 := if wordConverted ≠ cleaned then wordConverted else cleaned
      match
        (if wordConverted ≠ cleaned then
          tryStandardFormats currentYear minYear maxYear wordConverted
        else none)
      with
      | some d => some d
      | none =>
        match parseVoicePatterns currentYear minYear maxYear cleaned2 with
        | some d => some d
        | none => if validationLevel ≠ "strict" then fuzzyParse cleaned2 else none

/-- Response body of the enhanced `/api/enhanced-dob-normalize` handler
(the fields the claims are about: `type` and `dob_iso`). -/
structure EnhancedDobResponse where
  type : String
  dob_iso : Option CalDate
deriving Repr, DecidableEq

/-- The enhanced handler: `type` is `success` when normalization
produced a date, else `unable_to_normalize`; `dob_iso` carries the
date (output format `YYYY-MM-DD`, the identity here). -/
def enhancedDobEndpoint (fuzzyParse : List Char → Option CalDate)
    (currentYear minYear maxYear : Int) (validationLevel : String)
    (rawDob : List Char) : EnhancedDobResponse :=
  match normalizeDateOfBirthEnhanced fuzzyParse currentYear minYear maxYear
      validationLevel rawDob with
  | some d => ⟨"success", some d⟩
  | none => ⟨"unable_to_normalize", none⟩

set_option maxRecDepth 80000

/-- C2 (counterexample): the enhanced DOB normalizer validates against
`[min_year, max_year]` — by default `[1900, currentYear]` — not against
`[currentYear - 120, currentYear]`.  With the current year 2026 the well
formed input `"01/15/1903"` has a year outside the claimed band
(`1903 < 2026 - 120 = 1906`), yet the enhanced service answers
`type:'success'` instead of the claimed failure result. -/
theorem enhancedDob_accepts_year_below_band :
    enhancedDobEndpoint (fun _ => none) 2026 1900 2026 "standard" "01/15/1903".data =
      ⟨"success", some ⟨1903, 1, 15⟩⟩ ∧
    (1903 : Int) < 2026 - 120 := by
  exact ⟨by decide, by decide⟩

/-- C5 (code bug evidence): `convertWordNumbers` replaces the compound
pair ("ninety eight" → "98") and then the remaining number words
("nineteen" → "19") before it calls `parseYearExpressions`, so the
`nineteen NN` / `two thousand (and) N` patterns can never see their word
forms: `"nineteen ninety eight"` becomes `"19 98"` (not `"1998"`), and
`"two thousand eleven"` becomes `"2 thousand 11"` (not `"2011"`).
`parseYearExpressions` itself implements the claimed arithmetic
(`"nineteen ninety eight"` → `"1998"`) — it is just called too late.
End to end, the enhanced normalizer consequently fails on
`"nineteen ninety eight"` instead of resolving the year 1998. -/
theorem compound_year_grammar_never_applied :
    convertWordNumbers "nineteen ninety eight".data = "19 98".data ∧
    convertWordNumbers "two thousand eleven".data = "2 thousand 11".data ∧
    parseYearExpressions "nineteen ninety eight".data = "1998".data ∧
    parseYearExpressions "two thousand eleven".data = "2011".data ∧
    enhancedDobEndpoint (fun _ => none) 2026 1900 2026 "standard"
      "nineteen ninety eight".data = ⟨"unable_to_normalize", none⟩ := by
  exact ⟨by decide, by decide, by decide, by decide, by decide⟩

/-! ### Time parser (enhanced-parse-natural-time service)

The preprocessing pipeline of the appointment time parser.  Three of its
replacement tables (`numberWords` standalone pass, `typoMap`,
`synonymMap`) build their patterns with `` `\b${word}\b` `` inside a
template literal: there `\b` is the *backspace* escape (U+0008), not a
word boundary, so those patterns contain literal backspace characters
and can never match ordinary text.  They are embedded exactly so, as
plain literals containing `bsChar`. -/

/-- The backspace character produced by `\b` in a template literal. -/
def bsChar : Char := Char.ofNat 8

/-- `numberWords` of `convertSpokenNumbersToDigits`, in object order. -/
def numberWordsTbl : List (List Char × Nat) :=
  [("zero".data, 0), ("one".data, 1), ("two".data, 2), ("three".data, 3),
   ("four".data, 4), ("five".data, 5), ("six".data, 6), ("seven".data, 7),
   ("eight".data, 8), ("nine".data, 9), ("ten".data, 10), ("eleven".data, 11),
   ("twelve".data, 12), ("thirteen".data, 13), ("fourteen".data, 14),
   ("fifteen".data, 15), ("sixteen".data, 16), ("seventeen".data, 17),
   ("eighteen".data, 18), ("nineteen".data, 19), ("twenty".data, 20),
   ("thirty".data, 30), ("forty".data, 40), ("fifty".data, 50),
   ("sixty".data, 60), ("seventy".data, 70), ("eighty".data, 80),
   ("ninety".data, 90)]

/-- Replacement driver whose matcher also sees the previous character
(for patterns with `\b` at the start). -/
def replaceByMatcherB (m : Option Char → List Char → Option (Nat × List Char)) :
    Nat → Option Char → List Char → List Char
  | 0, _, s => s
  | _, _, [] => []
  | fuel + 1, prev, c :: rest =>
    match m prev (c :: rest) with
    | some (n, rep) =>
      if n = 0 then c :: replaceByMatcherB m fuel (some c) rest
      else rep ++ replaceByMatcherB m fuel (((c :: rest).take n).getLast?)
        ((c :: rest).drop n)
    | none => c :: replaceByMatcherB m fuel (some c) rest

/-- Tens words of the time-parser compound pattern, alternation order. -/
def tpCompoundTens : List (List Char × Nat) := tensTbl

/-- Ones words (`one`–`nine`) of the compound pattern. -/
def tpCompoundOnes : List (List Char × Nat) := onesYearTbl

/-- Head match of
`/\b(twenty|…|ninety)[\s-]?(one|…|nine)\b/gi`: optional single
space/hyphen separator (greedy), replacement is the decimal sum. -/
def matchTpCompoundAt (prev : Option Char) (s : List Char) :
    Option (Nat × List Char) :=
  if isWordOpt prev then none
  else
    tpCompoundTens.findSome? fun tp =>
      if tp.1.isPrefixOf s then
        let s1 := s.drop tp.1.length
        let withSep :=
          match s1.head? with
          | some c =>
            if isWsCh c || c = '-' then
              tpCompoundOnes.findSome? fun (op : List Char × Nat) =>
                if op.1.isPrefixOf (s1.drop 1) &&
                    !isWordOpt ((s1.drop (1 + op.1.length)).head?) then
                  some (tp.1.length + 1 + op.1.length, natDigits (tp.2 + op.2))
                else none
            else none
          | none => none
        match withSep with
        | some r => some r
        | none =>
          tpCompoundOnes.findSome? fun (op : List Char × Nat) =>
            if op.1.isPrefixOf s1 &&
                !isWordOpt ((s1.drop op.1.length).head?) then
              some (tp.1.length + op.1.length, natDigits (tp.2 + op.2))
            else none
      else none

/-- An alternative of the big date pattern: a plain word or a compound
`a[\s-]?b`. -/
inductive WAlt
  | simple (w : List Char)
  | comp (a b : List Char)
deriving Repr, DecidableEq

/-- Candidate consumed lengths of one alternative at the head of `s`, in
greedy order (compound: separator present before absent). -/
def altCands : WAlt → List Char → List Nat
  | .simple w, s => if w.isPrefixOf s then [w.length] else []
  | .comp a b, s =>
    if a.isPrefixOf s then
      let s1 := s.drop a.length
      (match s1.head? with
       | some c =>
         if (isWsCh c || c = '-') && b.isPrefixOf (s1.drop 1) then
           [a.length + 1 + b.length]
         else []
       | none => []) ++
      (if b.isPrefixOf s1 then [a.length + b.length] else [])
    else []

/-- Candidates of a whole alternation group, in alternation order. -/
def groupCands (g : List WAlt) (s : List Char) : List Nat :=
  g.flatMap (altCands · s)

/-- Candidate lengths of `\s+`, greedy (full run first). -/
def wsCands (s : List Char) : List Nat :=
  let r := wsRunLen s
  (List.range r).map fun i => r - i

/-- Helper words. -/
def onesW : List WAlt :=
  [.simple "one".data, .simple "two".data, .simple "three".data, .simple "four".data,
   .simple "five".data, .simple "six".data, .simple "seven".data, .simple "eight".data,
   .simple "nine".data]

/-- Teens alternatives `ten`–`nineteen`. -/
def teensW : List WAlt :=
  [.simple "ten".data, .simple "eleven".data, .simple "twelve".data,
   .simple "thirteen".data, .simple "fourteen".data, .simple "fifteen".data,
   .simple "sixteen".data, .simple "seventeen".data, .simple "eighteen".data,
   .simple "nineteen".data]

/-- Compound alternatives `twenty[\s-]?one` … `twenty[\s-]?nine`. -/
def twentyCompW : List WAlt :=
  [.comp "twenty".data "one".data, .comp "twenty".data "two".data,
   .comp "twenty".data "three".data, .comp "twenty".data "four".data,
   .comp "twenty".data "five".data, .comp "twenty".data "six".data,
   .comp "twenty".data "seven".data, .comp "twenty".data "eight".data,
   .comp "twenty".data "nine".data]

/-- Group 1 of the date pattern, in source alternation order. -/
def datePatternG1 : List WAlt :=
  onesW ++ teensW ++
  [.simple "twenty".data, .simple "thirty".data, .simple "forty".data,
   .simple "fifty".data, .simple "sixty".data, .simple "seventy".data,
   .simple "eighty".data, .simple "ninety".data] ++
  twentyCompW ++ [.comp "thirty".data "one".data]

/-- Group 2 of the date pattern. -/
def datePatternG2 : List WAlt :=
  onesW ++ teensW ++ [.simple "twenty".data] ++ twentyCompW ++
  [.simple "thirty".data, .comp "thirty".data "one".data]

/-- Group 3 of the date pattern. -/
def datePatternG3 : List WAlt :=
  [.simple "ninety".data, .simple "nineteen".data, .simple "twenty".data] ++
  twentyCompW ++ [.simple "thirty".data, .comp "thirty".data "one".data]

/-- Head match of the date pattern
`\b(G1)\s+(G2)\s+(G3)[ -]?(one|…|nine)?\b`, with full backtracking over
the alternation and quantifier choices; returns the consumed length. -/
def matchDatePatternLen (prev : Option Char) (s : List Char) : Option Nat :=
  if isWordOpt prev then none
  else
    (groupCands datePatternG1 s).findSome? fun n1 =>
      (wsCands (s.drop n1)).findSome? fun w1 =>
        let p2 := n1 + w1
        (groupCands datePatternG2 (s.drop p2)).findSome? fun n2 =>
          (wsCands (s.drop (p2 + n2))).findSome? fun w2 =>
            let p3 := p2 + n2 + w2
            (groupCands datePatternG3 (s.drop p3)).findSome? fun n3 =>
              let p4 := p3 + n3
              let sepOpts :=
                match (s.drop p4).head? with
                | some c => if c = ' ' || c = '-' then [1, 0] else [0]
                | none => [0]
              sepOpts.findSome? fun sp =>
                let p5 := p4 + sp
                let g4opts := groupCands onesW (s.drop p5) ++ [0]
                g4opts.findSome? fun n4 =>
                  let total := p5 + n4
                  let lastCh := (s.take total).getLast?
                  let nextCh := (s.drop total).head?
                  if isWordOpt lastCh != isWordOpt nextCh then some total
                  else none

/-- The replacement callback of the date pattern: split the match on
whitespace, map words through `numberWords`, and if at least three all
numeric parts result, format as `month/day/year` with the 2-digit-year
century rule; otherwise keep the match unchanged. -/
def datePatternReplacement (matched : List Char) : List Char :=
  let parts := splitWsRuns matched
  let converted := parts.map fun part =>
    if part ≠ [] && part.all isDigitCh then part
    else
      match lookupW numberWordsTbl part with
      | some v => natDigits v
      | none => part
  if converted.length ≥ 3 && converted.all (fun p => p ≠ [] && p.all isDigitCh) then
    let month := converted.headD []
    let day := (converted.drop 1).headD []
    let year := (converted.drop 2).foldl (· ++ ·) []
    let year2 :=
      if year.length = 2 then
        if digitsToNat year > 30 then "19".data ++ year else "20".data ++ year
      else year
    month ++ '/' :: day ++ '/' :: year2
  else matched

/-- Head matcher of the date pattern, with replacement. -/
def matchDatePatternAt (prev : Option Char) (s : List Char) :
    Option (Nat × List Char) :=
  (matchDatePatternLen prev s).map fun n => (n, datePatternReplacement (s.take n))

/-- `convertSpokenNumbersToDigits(text)`: compound pass, date-pattern
pass, then the standalone `numberWords` pass — whose patterns contain
literal backspaces and therefore never fire on ordinary text. -/
def convertSpokenNumbersToDigits (text : List Char) : List Char :=
  let t1 := replaceByMatcherB matchTpCompoundAt text.length none text
  let t2 := replaceByMatcherB matchDatePatternAt t1.length none t1
  numberWordsTbl.foldl
    (fun acc p =>
      replaceLit (bsChar :: p.1 ++ [bsChar]) (natDigits p.2) acc.length acc)
    t2

/-- `timeKeywords` of `enhancedWordSeparation`. -/
def timeKeywordsTp : List (List Char) :=
  ["anytime".data, "any".data, "time".data, "day".data, "this".data, "next".data,
   "last".data, "week".data, "month".data, "year".data, "morning".data,
   "afternoon".data, "evening".data, "night".data, "today".data, "tomorrow".data,
   "yesterday".data]

/-- `dayNames`. -/
def dayNamesTp : List (List Char) :=
  ["monday".data, "tuesday".data, "wednesday".data, "thursday".data,
   "friday".data, "saturday".data, "sunday".data]

/-- `monthNames`. -/
def monthNamesTp : List (List Char) :=
  ["january".data, "february".data, "march".data, "april".data, "may".data,
   "june".data, "july".data, "august".data, "september".data, "october".data,
   "november".data, "december".data]

/-- Stable insertion by length, longest first (models the ES2019-stable
`sort((a, b) => b.length - a.length)`). -/
def insertLenDesc (a : List Char) : List (List Char) → List (List Char)
  | [] => [a]
  | b :: bs => if b.length ≤ a.length then a :: b :: bs else b :: insertLenDesc a bs

/-- Stable sort by length, longest first. -/
def sortLenDesc : List (List Char) → List (List Char)
  | [] => []
  | a :: rest => insertLenDesc a (sortLenDesc rest)

/-- Head match of `(keyword)([a-z]+)` with replacement `'$1 $2'`. -/
def matchAfterKw (kw : List Char) (s : List Char) : Option (Nat × List Char) :=
  if kw.isPrefixOf s then
    let rest := s.drop kw.length
    let r := (rest.takeWhile isLowerAZ).length
    if r > 0 then some (kw.length + r, kw ++ ' ' :: rest.take r) else none
  else none

/-- Head match of `([a-z]+)(keyword)` with replacement `'$1 $2'`
(greedy group with backtracking: longest letter prefix first). -/
def matchBeforeKw (kw : List Char) (s : List Char) : Option (Nat × List Char) :=
  let r := (s.takeWhile isLowerAZ).length
  if r = 0 then none
  else
    ((List.range r).map fun i => r - i).findSome? fun l =>
      if kw.isPrefixOf (s.drop l) then
        some (l + kw.length, s.take l ++ ' ' :: kw)
      else none

/-- `enhancedWordSeparation(text)`: for every keyword, longest first,
split letters stuck after it and letters stuck before it; finally the
special case `anytime` → `any time`. -/
def enhancedWordSeparation (text : List Char) : List Char :=
  let allKeywords := sortLenDesc (timeKeywordsTp ++ dayNamesTp ++ monthNamesTp)
  let separated := allKeywords.foldl
    (fun acc kw =>
      let a1 := replaceByMatcher (matchAfterKw kw) acc.length acc
      replaceByMatcher (matchBeforeKw kw) a1.length a1)
    text
  replaceWordB "anytime".data "any time".data separated.length none separated

/-- `typoMap`, in object order. -/
def typoTbl : List (List Char × List Char) :=
  [("tomorow".data, "tomorrow".data), ("tommorow".data, "tomorrow".data),
   ("wendsday".data, "wednesday".data), ("wensday".data, "wednesday".data),
   ("thrusday".data, "thursday".data), ("febuary".data, "february".data),
   ("janurary".data, "january".data)]

/-- `synonymMap`, in object order. -/
def synonymTbl : List (List Char × List Char) :=
  [("noon".data, "12:00pm".data), ("midday".data, "12:00pm".data),
   ("midnight".data, "12:00am".data), ("end of the week".data, "friday".data),
   ("eod".data, "5:00pm".data), ("end of day".data, "5:00pm".data)]

/-- `preprocessNaturalTime(text)`: lowercase, number conversion, word
separation, the typo pass, the synonym pass (both built with the broken
backspace patterns), whitespace collapse and trim. -/
def preprocessNaturalTime (text : List Char) : List Char :=
  if text.isEmpty then []
  else
    let c0 := asciiLower text
    let c1 := convertSpokenNumbersToDigits c0
    let c2 := enhancedWordSeparation c1
    let c3 := typoTbl.foldl
      (fun acc p => replaceLit (bsChar :: p.1 ++ [bsChar]) p.2 acc.length acc) c2
    let c4 := synonymTbl.foldl
      (fun acc p => replaceLit (bsChar :: p.1 ++ [bsChar]) p.2 acc.length acc) c3
    trimWs (replaceWsRuns c4)

/-! The fallback appointment parser and the multi-strategy pipeline.
Days are day numbers in the caller's timezone with day 0 a Sunday, so
`moment.startOf('week')` (locale `en`, weeks start on Sunday) is
`d - d % 7` and `endOf('week')` is that plus 6. -/

/-- `moment(today).startOf('week')` as a day number. -/
def weekStartD (today : Nat) : Nat := today - today % 7

/-- `moment(today).endOf('week')` as a day number. -/
def weekEndD (today : Nat) : Nat := weekStartD today + 6

/-- A `date_range {start, end}` (`stop` models the JS field `end`). -/
structure DateRange where
  start : Nat
  stop : Nat
deriving Repr, DecidableEq

/-- The `partial_info` record of `extractPartialTimeInfo`. -/
structure PartInfo where
  time_preference : Option String := none
  urgency : Option String := none
  flexibility : Option String := none
  mentioned_day : Option String := none
deriving Repr, DecidableEq

/-- A parse result of the appointment pipeline (union of the fields the
strategies produce; absent JS fields are the defaults). -/
structure ApptResult where
  date : Option Nat := none
  time_of_day : String := "any"
  confidence : String := "low"
  flexible : Bool := false
  urgent : Bool := false
  date_range : Option DateRange := none
  note : Option String := none
  needs_clarification : Bool := false
  partInfo : PartInfo := {}
  parser : String := ""
deriving Repr, DecidableEq

/-- Trailing part of a `\b G1 \s+ G2 … \b` pattern: consumed length of
the remaining groups (alternatives are plain literals, tried in order;
`\s+` takes the whole run, as every group starts with a letter). -/
def matchSeqTail : List (List (List Char)) → List Char → Option Nat
  | [], _ => some 0
  | [g], s =>
    g.findSome? fun alt =>
      if alt.isPrefixOf s && !isWordOpt ((s.drop alt.length).head?) then
        some alt.length
      else none
  | g :: gs, s =>
    g.findSome? fun alt =>
      if alt.isPrefixOf s then
        let s1 := s.drop alt.length
        let w := wsRunLen s1
        if w = 0 then none
        else (matchSeqTail gs (s1.drop w)).map (alt.length + w + ·)
      else none

/-- Leftmost match (the matched substring) of a word-bounded
group-sequence pattern. -/
def findSeqWB (groups : List (List (List Char))) :
    Option Char → List Char → Option (List Char)
  | _, [] => none
  | prev, c :: rest =>
    (if isWordOpt prev then none
     else (matchSeqTail groups (c :: rest)).map fun n => (c :: rest).take n)
      |>.orElse fun _ => findSeqWB groups (some c) rest

/-- `fallbackAppointmentParser(text, timezone)`: the exact-match table
of appointment phrases, then the partial regex patterns. -/
def fallbackAppointmentParser (today : Nat) (text : List Char) :
    Option ApptResult :=
  let lowerText := trimWs (asciiLower text)
  if lowerText == "any time this week".data then
    some { date := some (weekEndD today), time_of_day := "any", confidence := "high",
           flexible := true, date_range := some ⟨weekStartD today, weekEndD today⟩ }
  else if lowerText == "any time next week".data then
    some { date := some (weekEndD today + 7), time_of_day := "any",
           confidence := "high", flexible := true,
           date_range := some ⟨weekStartD today + 7, weekEndD today + 7⟩ }
  else if lowerText == "whenever".data then
    some { date := some (today + 7), time_of_day := "any", confidence := "medium",
           flexible := true, note := some "Patient is flexible - suggest next available" }
  else if lowerText == "as soon as possible".data then
    some { date := some today, time_of_day := "any", confidence := "high",
           urgent := true, note := some "Patient needs urgent appointment" }
  else if lowerText == "asap".data then
    some { date := some today, time_of_day := "any", confidence := "high",
           urgent := true, note := some "Patient needs urgent appointment" }
  else if lowerText == "next available".data then
    some { date := some today, time_of_day := "any", confidence := "high",
           urgent := true, note := some "Patient wants next available slot" }
  else
    match findSeqWB [["any time".data, "whenever".data],
        ["this".data, "next".data], ["week".data]] none lowerText with
    | some m =>
      let weekOffset := if containsSub "next".data m then 7 else 0
      some { date := some (weekEndD today + weekOffset), time_of_day := "any",
             confidence := "high", flexible := true,
             date_range := some ⟨weekStartD today + weekOffset,
                                 weekEndD today + weekOffset⟩ }
    | none =>
      match findSeqWB [["morning".data, "afternoon".data, "evening".data],
          ["appointment".data, "slot".data, "time".data]] none lowerText with
      | some m =>
        let timeOfDay :=
          if containsSub "morning".data m then "morning"
          else if containsSub "afternoon".data m then "afternoon"
          else "evening"
        some { date := some today, time_of_day := timeOfDay, confidence := "medium",
               note := some ("Patient prefers " ++ timeOfDay ++ " appointment") }
      | none =>
        match findSeqWB [["first".data, "earliest".data],
            ["available".data, "appointment".data, "slot".data]] none lowerText with
        | some _ =>
          some { date := some today, time_of_day := "any", confidence := "high",
                 urgent := true, note := some "Patient wants first available slot" }
        | none => none

/-- `extractPartialTimeInfo(text)`: collect time-of-day, urgency,
flexibility and day-mention signals; return a low-confidence result when
at least one was found. -/
def extractPartialTimeInfo (text : List Char) : Option ApptResult :=
  let lowerText := asciiLower text
  let has : String → Bool := fun w => containsSub w.data lowerText
  let tp : Option String :=
    if has "morning" || has "am" then some "morning"
    else if has "afternoon" || has "pm" then some "afternoon"
    else if has "evening" || has "night" then some "evening"
    else none
  let timeOfDay := match tp with | some t => t | none => "any"
  let urgent := has "urgent" || has "asap" || has "emergency" || has "soon"
  let flexible := has "any" || has "flexible" || has "whenever" || has "open"
  let mentioned := ["monday", "tuesday", "wednesday", "thursday", "friday",
      "saturday", "sunday"].foldl
    (fun acc d => if has d then some d else acc) (none : Option String)
  let pinfo : PartInfo :=
    { time_preference := tp,
      urgency := if urgent then some "high" else none,
      flexibility := if flexible then some "high" else none,
      mentioned_day := mentioned }
  if pinfo.time_preference.isSome || pinfo.urgency.isSome ||
      pinfo.flexibility.isSome || pinfo.mentioned_day.isSome then
    some { date := none, time_of_day := timeOfDay, confidence := "low",
           urgent := urgent, flexible := flexible, partInfo := pinfo }
  else none

/-- Result of `parseNaturalTime` (the chrono-node strategy).  chrono is
an external library; the pipeline takes its wrapped outcome as an
oracle argument. -/
structure ChronoResult where
  date : Option Nat
  time_of_day : String
  confidence : String
deriving Repr, DecidableEq

/-- Promote a chrono outcome to a pipeline result. -/
def chronoToAppt (c : ChronoResult) : ApptResult :=
  { date := c.date, time_of_day := c.time_of_day, confidence := c.confidence,
    parser := "chrono" }

/-- `parseNaturalTimeWithFallbacks(naturalTime, timezone)`: chrono
first (accepted when it has a date and confidence is not `low`), then
the fallback phrase parser, then partial extraction, then the
clarification result. -/
def parseNaturalTimeWithFallbacks (chronoParse : List Char → ChronoResult)
    (today : Nat) (naturalTime : List Char) : ApptResult :=
  let chronoResult := chronoParse naturalTime
  if chronoResult.date.isSome && chronoResult.confidence != "low" then
    chronoToAppt chronoResult
  else
    match fallbackAppointmentParser today naturalTime with
    | some r => { r with parser := "fallback" }
    | none =>
      match extractPartialTimeInfo naturalTime with
      | some e => { e with parser := "extraction" }
      | none =>
        { date := none, time_of_day := "any", confidence := "none",
          needs_clarification := true, parser := "none" }

/-- C3 (amended): preprocessing turns `"anytimethisweek"` into exactly
`"any time this week"`; when the chrono strategy yields no confident
result, the phrase fallback table matches it and the parse returns
`confidence = high`, `flexible = true` and a `date_range` spanning the
*full* current Sunday-to-Saturday week — `start` is the week's Sunday
(`today - today % 7`, day 0 being a Sunday), which may already have
elapsed, and `end` is the following Saturday.  (The original claim's
"excluding already-elapsed days" fails, see the counterexample.) -/
theorem anytimethisweek_fallback_parse (chronoParse : List Char → ChronoResult)
    (today : Nat)
    (hchrono : (chronoParse "any time this week".data).date = none ∨
               (chronoParse "any time this week".data).confidence = "low") :
    preprocessNaturalTime "anytimethisweek".data = "any time this week".data ∧
    parseNaturalTimeWithFallbacks chronoParse today
        (preprocessNaturalTime "anytimethisweek".data) =
      { date := some (weekStartD today + 6), time_of_day := "any",
        confidence := "high", flexible := true,
        date_range := some ⟨weekStartD today, weekStartD today + 6⟩,
        parser := "fallback" } := by
  have hpre : preprocessNaturalTime "anytimethisweek".data =
      "any time this week".data := by decide
  refine ⟨hpre, ?_⟩
  rw [hpre]
  have hcond : ((chronoParse "any time this week".data).date.isSome &&
      (chronoParse "any time this week".data).confidence != "low") = false := by
    rcases hchrono with h | h <;> simp [h]
  unfold parseNaturalTimeWithFallbacks
  simp only [hcond, Bool.false_eq_true, if_false]
  rfl

/-- C3 (witness): the amended theorem at `today = 3` (a Wednesday) and a
chrono oracle that finds nothing. -/
theorem anytimethisweek_fallback_parse_witness :
    preprocessNaturalTime "anytimethisweek".data = "any time this week".data ∧
    parseNaturalTimeWithFallbacks (fun _ => ⟨none, "any", "low"⟩) 3
        (preprocessNaturalTime "anytimethisweek".data) =
      { date := some 6, time_of_day := "any", confidence := "high",
        flexible := true, date_range := some ⟨0, 6⟩, parser := "fallback" } :=
  anytimethisweek_fallback_parse (fun _ => ⟨none, "any", "low"⟩) 3 (Or.inl rfl)

/-- C3 (counterexample): with day 0 a Sunday and today = 3 (the
Wednesday of that week), the fallback result for `"anytimethisweek"`
has `date_range.start = 0` — the already-elapsed Sunday — not 3; the
range spans the whole week rather than its remainder, refuting
"excluding already-elapsed days". -/
theorem anytimethisweek_range_includes_elapsed_days :
    (parseNaturalTimeWithFallbacks (fun _ => ⟨none, "any", "low"⟩) 3
        (preprocessNaturalTime "anytimethisweek".data)).date_range =
      some ⟨0, 6⟩ ∧
    (0 : Nat) < 3 ∧
    (parseNaturalTimeWithFallbacks (fun _ => ⟨none, "any", "low"⟩) 3
        (preprocessNaturalTime "anytimethisweek".data)).date_range ≠
      some ⟨3, 6⟩ := by
  refine ⟨by decide, by decide, by decide⟩

/-- C6 (code bug evidence): the typo pass builds its patterns with
`` new RegExp(`\b${typo}\b`, 'g') `` — in a template literal `\b` is the
backspace character, so the pattern `...\x08tomorow\x08...` never
matches ordinary text and the standalone word `tomorow` comes through
preprocessing uncorrected (same for `febuary`); `tomorrow` never
appears in the output. -/
theorem typo_table_never_fires :
    preprocessNaturalTime "tomorow".data = "tomorow".data ∧
    containsSub "tomorrow".data (preprocessNaturalTime "tomorow".data) = false ∧
    preprocessNaturalTime "febuary".data = "febuary".data ∧
    containsSub "february".data (preprocessNaturalTime "febuary".data) = false := by
  refine ⟨by decide, by decide, by decide, by decide⟩

/-! Claim C4: the catch branches of the handlers. -/

/-- A JavaScript `Error`: `message` and `stack`. -/
structure JsError where
  message : String
  stack : String
deriving Repr, DecidableEq

/-- The catch-branch response of the time parser's
`/api/enhanced-parse-natural-time` handler (HTTP 200 with a fallback
prompt; `error_details` carries `error.message`). -/
structure TimeParserCatchResponse where
  status : Nat
  success : Bool
  message : String
  fallback_response : String
  error_details : String
deriving Repr, DecidableEq

/-- `catch (error)` of the time parser handler. -/
def timeParserCatch (error : JsError) : TimeParserCatchResponse :=
  { status := 200, success := false,
    message := "Could not process appointment request",
    fallback_response := "When would you like to schedule your appointment? You can say things like \"tomorrow morning\" or \"any time next week\".",
    error_details := error.message }

/-- The catch-branch response of the chrono/date-fns DOB handler. -/
structure DobCatchResponse where
  status : Nat
  error : String
deriving Repr, DecidableEq

/-- `catch (error)` of the chrono/date-fns DOB handler. -/
def dobCatch (_error : JsError) : DobCatchResponse :=
  { status := 500, error := "Internal server error" }

/-- The catch-branch response of the enhanced DOB handler. -/
structure EnhancedDobCatchResponse where
  status : Nat
  type : String
  dob_iso : Option CalDate
  error : String
  message : String
deriving Repr, DecidableEq

/-- `catch (error)` of the enhanced DOB handler. -/
def enhancedDobCatch (error : JsError) : EnhancedDobCatchResponse :=
  { status := 500, type := "error", dob_iso := none,
    error := "Internal server error", message := error.message }

/-- C4 (amended): on an unexpected exception both DOB handlers answer a
generic 500, while the time parser's handler deliberately answers 200
with a fallback prompt; none of the three responses depends on the
exception's stack trace (only `message` is ever echoed), so no stack
trace is returned. -/
theorem handler_catch_responses (e : JsError) :
    (dobCatch e).status = 500 ∧
    (enhancedDobCatch e).status = 500 ∧
    (timeParserCatch e).status = 200 ∧
    (∀ s, dobCatch { e with stack := s } = dobCatch e) ∧
    (∀ s, enhancedDobCatch { e with stack := s } = enhancedDobCatch e) ∧
    (∀ s, timeParserCatch { e with stack := s } = timeParserCatch e) :=
  ⟨rfl, rfl, rfl, fun _ => rfl, fun _ => rfl, fun _ => rfl⟩

/-- C4 (counterexample): the time parser's catch branch answers HTTP
200, not the claimed 500. -/
theorem timeParserCatch_status_not_500 :
    (timeParserCatch ⟨"boom", "Error: boom at handler"⟩).status = 200 ∧
    (timeParserCatch ⟨"boom", "Error: boom at handler"⟩).status ≠ 500 :=
  ⟨rfl, by decide⟩
